import Mathlib

/-!
Verification development for the text_to_sql repository's validation/decision
pipeline.  The Python source is shallowly embedded: pure string manipulation is
modelled over `List Char` (Python `str` methods are reproduced as executable
Lean functions), every language-model ("oracle") interaction is an explicit
input to the embedded function (the oracle is an untrusted external
collaborator, so a function's behaviour is specified for every possible oracle
outcome), and fallible external calls (database execution, schema scan) are
`Except` parameters.  All definitions follow the corresponding source functions
in `src/app`; file and line references are given on each definition.
-/

/-! ## Python string primitives

Models of the `str` operations used by the source: `.lower()`, `.strip()`,
substring membership (`in`), `.startswith`, `.split`, `.count`, `len(s.split())`.
All operate on `List Char`; they are faithful for the ASCII text these tools
handle. -/

/-- Model of Python `str.lower()` applied to a string, as a character list. -/
def lowerData (s : String) : List Char :=
  s.data.map Char.toLower

/-- Model of Python `str.strip()` on a character list: remove leading and
trailing whitespace. -/
def stripData (l : List Char) : List Char :=
  ((l.dropWhile Char.isWhitespace).reverse.dropWhile Char.isWhitespace).reverse

/-- Model of Python `s.lower().strip()` (used to normalise SQL text and user
replies throughout the source). -/
def lowerStrip (s : String) : List Char :=
  stripData (lowerData s)

/-- Model of Python `s.strip().lower()` returned as a `String` (used on the
oracle's `decision` field in `sql_guardrail`). -/
def stripLowerStr (s : String) : String :=
  String.mk ((stripData s.data).map Char.toLower)

/-- Model of Python substring membership `needle in hay`. -/
def containsSub (hay needle : List Char) : Bool :=
  (List.range (hay.length + 1)).any fun i => needle.isPrefixOf (hay.drop i)

/-- Model of Python `str.split(sep)` for a single-character separator:
splits on every occurrence, keeping empty pieces. -/
def splitChar (sep : Char) : List Char → List (List Char)
  | [] => [[]]
  | c :: cs =>
    let r := splitChar sep cs
    if c == sep then [] :: r
    else
      match r with
      | [] => [[c]]
      | h :: t => (c :: h) :: t

/-- Membership of a normalised reply (as a character list) in a list of
word literals, modelling Python `x in ["yes", "no", ...]`. -/
def inWordList (l : List Char) (ws : List String) : Bool :=
  ws.any fun w => l == w.data

/-- Auxiliary word counter: counts maximal non-whitespace runs, carrying a
flag recording whether the scan is currently inside a word. -/
def wcAux : List Char → Bool → Nat
  | [], _ => 0
  | c :: cs, inw =>
    if c.isWhitespace then wcAux cs false
    else (if inw then 0 else 1) + wcAux cs true

/-- Model of Python `len(s.split())`: the number of whitespace-separated
tokens of `s`. -/
def pyWordCount (s : String) : Nat :=
  wcAux s.data false

/-! ## Guardrail (Risk Classifier)

Embedding of `sql_guardrail` (src/app/services/llm/tools/sql_guardrail.py,
lines 14-161).  The oracle call (`llm.chat`) returns text; the `try` block
extracts and JSON-parses it.  `GuardOracle.parsed dec fb` models a successful
parse where `str(parsed.get("decision", "reject"))` is `dec` and
`str(parsed.get("feedback", ""))` is `fb`; `GuardOracle.unparsed content`
models the `except` path (unparseable output), where `content` is the raw
oracle text used in the fallback's feedback strings. -/

/-- Result dictionary of `sql_guardrail`. -/
structure GuardrailResult where
  accept : Bool
  decision : String
  feedback : String
deriving DecidableEq

/-- Outcome of the guardrail's oracle call and JSON-parse attempt. -/
inductive GuardOracle where
  | parsed (decision feedback : String)
  | unparsed (content : String)
deriving DecidableEq

/-- DDL keyword list of the guardrail fallback (sql_guardrail.py line 128). -/
def ddlKeywords : List String :=
  [" alter ", " drop ", " create ", " truncate ", " grant ", " revoke "]

/-- Leading-keyword test `sql_lc.startswith("select") or sql_lc.startswith("with")`. -/
def isSelectKw (l : List Char) : Bool :=
  "select".data.isPrefixOf l || "with".data.isPrefixOf l

/-- Leading-keyword test for INSERT/UPDATE (sql_guardrail.py line 125). -/
def isInsertUpdateKw (l : List Char) : Bool :=
  "insert".data.isPrefixOf l || "update".data.isPrefixOf l

/-- Substring test for a space-delimited DDL keyword (sql_guardrail.py line 128). -/
def containsDDL (l : List Char) : Bool :=
  ddlKeywords.any fun k => containsSub l k.data

/-- Multi-statement heuristic `sql_lc.count(";") > 1` (sql_guardrail.py line 131). -/
def multiStmt (l : List Char) : Bool :=
  List.count ';' l > 1

/-- The `[stmt.strip() for stmt in sql_lc.split(';') if stmt.strip()]` list
followed by `all(stmt.startswith('insert') ...)` (sql_guardrail.py lines 150-151). -/
def allStatementsInsert (l : List Char) : Bool :=
  (((splitChar ';' l).map stripData).filter fun st => st ≠ ([] : List Char)).all
    fun st => "insert".data.isPrefixOf st

/-- Python `content.strip()[:500]` used for fallback feedback strings. -/
def trunc500 (content : String) : String :=
  String.mk ((stripData content.data).take 500)

/-- Embedding of `sql_guardrail(sql, user_type)`
(src/app/services/llm/tools/sql_guardrail.py lines 14-161), with the oracle
interaction made explicit.  On a parseable oracle response the function
returns the oracle's decision (stripped and lowercased) unchanged; on an
unparseable response it runs the deterministic keyword fallback. -/
def sql_guardrail (sql : String) (user_type : String) (oracle : GuardOracle) :
    GuardrailResult :=
  match oracle with
  | .parsed dec fb =>
    let decision := stripLowerStr dec
    { accept := decision == "accept", decision := decision, feedback := fb }
  | .unparsed content =>
    let sql_lc := lowerStrip sql
    let is_select := isSelectKw sql_lc
    let is_insert_update := isInsertUpdateKw sql_lc
    let is_delete := "delete".data.isPrefixOf sql_lc
    let contains_drop := containsSub sql_lc "drop".data
    let contains_ddl := containsDDL sql_lc
    let multi_stmt := multiStmt sql_lc
    if lowerData user_type == "admin".data then
      if is_select || is_insert_update || is_delete || contains_ddl then
        ⟨true, "accept", "Admin user - allowed operation"⟩
      else if multi_stmt then
        ⟨false, "human_verification", "Admin user - multi-statement requires verification"⟩
      else
        ⟨false, "reject", "Admin user - potentially malicious operation"⟩
    else
      if is_delete || contains_drop then
        ⟨false, "human_verification", "DELETE/DROP operations require human verification"⟩
      else if multi_stmt && is_insert_update then
        if allStatementsInsert sql_lc then
          ⟨true, "accept", "Legitimate multi-statement INSERT operation"⟩
        else
          ⟨false, "human_verification", "Multi-statement operation requires verification"⟩
      else if (is_select || is_insert_update) && !contains_ddl && !multi_stmt then
        ⟨true, "accept", trunc500 content⟩
      else if contains_ddl then
        ⟨false, "human_verification", trunc500 content⟩
      else
        ⟨false, "reject", trunc500 content⟩

/-! ## Complexity Analyzer

Embedding of `_analyze_query_complexity`
(src/app/services/llm/tools/validation_orchestrator.py lines 153-231).
The four subquery regexes are modelled positionally: a `re.search` succeeds
iff positions exist at which the pattern's literal parts occur in order, with
`.*` gaps containing no newline and `\b` word boundaries holding. -/

/-- Python regex word character (`\w` over ASCII): letters, digits, underscore. -/
def isWordChar (c : Char) : Bool :=
  c.isAlphanum || c == '_'

/-- Character of `l` at position `i`, with a space (a non-word, non-newline
character) standing in for out-of-range positions, matching end-of-string
behaviour of regex boundaries. -/
def charAt (l : List Char) (i : Nat) : Char :=
  l.getD i ' '

/-- The positions `i, ..., j-1` of `l` contain no newline: the region a
non-DOTALL `.*` may span. -/
def noNL (l : List Char) (i j : Nat) : Bool :=
  ((l.drop i).take (j - i)).all fun c => c != '\n'

/-- A `\bw\b` match of the word `w` (made of word characters) at position `i`. -/
def wordBndAt (l w : List Char) (i : Nat) : Bool :=
  (w.isPrefixOf (l.drop i) && (i == 0 || !isWordChar (charAt l (i - 1)))) &&
    !isWordChar (charAt l (i + w.length))

/-- Match of the regex `\(.*\bselect\b.*\)` (validation_orchestrator.py line 171). -/
def patParenSelect (l : List Char) : Bool :=
  (List.range l.length).any fun i =>
    charAt l i == '(' &&
    ((List.range l.length).any fun j =>
      (i + 1 ≤ j && noNL l (i + 1) j && wordBndAt l "select".data j) &&
      ((List.range l.length).any fun k =>
        j + 6 ≤ k && noNL l (j + 6) k && charAt l k == ')'))

/-- Match of the regex `\bKW\b.*\b\(.*\bselect\b` for a keyword `kw`
(validation_orchestrator.py lines 172-174, with `kw` one of where/from/in). -/
def patKwParenSelect (kw : List Char) (l : List Char) : Bool :=
  (List.range l.length).any fun i =>
    wordBndAt l kw i &&
    ((List.range l.length).any fun j =>
      (i + kw.length ≤ j && noNL l (i + kw.length) j &&
        (0 < j && isWordChar (charAt l (j - 1))) && charAt l j == '(') &&
      ((List.range l.length).any fun k =>
        j + 1 ≤ k && noNL l (j + 1) k && wordBndAt l "select".data k))

/-- Subquery factor of `_analyze_query_complexity` (lines 167-178): the
`"(" in sql_lower and "select" in sql_lower` guard followed by
`any(re.search(pattern, sql_lower) ...)` over the four subquery patterns. -/
def subqueryHit (l : List Char) : Bool :=
  (containsSub l "(".data && containsSub l "select".data) &&
    (patParenSelect l || patKwParenSelect "where".data l ||
      patKwParenSelect "from".data l || patKwParenSelect "in".data l)

/-- Length factor (lines 193-199): `+2` when over 50 words, `+1` when over 20. -/
def lenScore (n : Nat) : Nat :=
  if n > 50 then 2 else if n > 20 then 1 else 0

/-- Operation-type factor (lines 208-213): `+2` for a leading UPDATE/DELETE,
`+1` for a leading INSERT. -/
def opScore (l : List Char) : Nat :=
  if "update".data.isPrefixOf l || "delete".data.isPrefixOf l then 2
  else if "insert".data.isPrefixOf l then 1
  else 0

/-- The additive complexity score of `_analyze_query_complexity`
(validation_orchestrator.py lines 157-213). -/
def complexityScore (user_query generated_sql : String) : Nat :=
  let l := lowerData generated_sql
  (if containsSub l "join".data then 2 else 0) +
  (if subqueryHit l then 2 else 0) +
  (if containsSub l "union".data || containsSub l "intersect".data then 3 else 0) +
  (if containsSub l "group by".data || containsSub l "having".data then 1 else 0) +
  (if containsSub l "order by".data then 1 else 0) +
  lenScore (pyWordCount generated_sql) +
  (if pyWordCount user_query > 20 then 1 else 0) +
  opScore l

/-- Strategy selected from a complexity score (lines 216-224). -/
def strategyOfScore (n : Nat) : String :=
  if n ≥ 6 then "parallel" else if n ≥ 3 then "sequential" else "minimal"

/-- Complexity level selected from a complexity score (lines 216-224). -/
def levelOfScore (n : Nat) : String :=
  if n ≥ 6 then "high" else if n ≥ 3 then "medium" else "low"

/-- The validation strategy chosen by `_analyze_query_complexity`. -/
def validationStrategy (user_query generated_sql : String) : String :=
  strategyOfScore (complexityScore user_query generated_sql)

/-- The complexity level reported by `_analyze_query_complexity`. -/
def complexityLevel (user_query generated_sql : String) : String :=
  levelOfScore (complexityScore user_query generated_sql)

/-- Ordering of strategies by how much validation they perform, used to state
that a strategy is never downgraded: `minimal` < `sequential` < `parallel`. -/
def strategyRank (s : String) : Nat :=
  if s == "parallel" then 2 else if s == "sequential" then 1 else 0

/-- Non-word leading character test for an appended text fragment (after
lowercasing); whitespace qualifies, so any appended clause that starts with a
space satisfies it. -/
def headNonWord (l : List Char) : Bool :=
  match l with
  | [] => true
  | c :: _ => !isWordChar c

/-! ## Validation step results and the orchestrator

Embedding of `_execute_validation_task`, `_execute_parallel_validation`,
`_execute_sequential_validation`, `_execute_minimal_validation` and
`_analyze_validation_results`
(src/app/services/llm/tools/validation_orchestrator.py lines 234-464).
Each individual validator either returns its result dictionary or raises;
this outcome is an `Except String` parameter.  The `validation_results`
dictionary has at most the four fixed keys, modelled as four `Option` fields
in insertion order. -/

/-- Result dictionary of `strict_schema_validator` as read by the aggregator
(fields `is_valid`, `errors`, `warnings`, `suggestions`). -/
structure SchemaResult where
  is_valid : Bool
  errors : List String
  warnings : List String
  suggestions : List String
deriving DecidableEq

/-- Result dictionary of `sql_injection_detector`. -/
structure InjectionResult where
  is_injection : Bool
  reason : String
  confidence : String
deriving DecidableEq

/-- Result dictionary of `sql_query_validator` as read by the aggregator
(fields `is_correct`, `explanation`, `suggestions`). -/
structure QueryValidationResult where
  is_correct : Bool
  explanation : String
  suggestions : List String
deriving DecidableEq

/-- One entry of the `validation_results` dictionary: the wrapper built by
`_execute_validation_task` (lines 234-252). -/
structure StepData (α : Type) where
  result : Option α
  parallel : Bool
  status : String
  error : Option String
deriving DecidableEq

/-- `_execute_validation_task`: a completed task stores its result with
status `completed`; a raising task stores no result, status `failed` and the
error text (validation_orchestrator.py lines 234-252). -/
def runTask {α : Type} (behavior : Except String α) (par : Bool) : StepData α :=
  match behavior with
  | .ok r => ⟨some r, par, "completed", none⟩
  | .error e => ⟨none, par, "failed", some e⟩

/-- The `validation_results` dictionary: at most one entry per validator,
`none` when the validator was never invoked on this run. -/
structure ValidationResultsMap where
  schema_validation : Option (StepData SchemaResult)
  injection_detection : Option (StepData InjectionResult)
  query_validation : Option (StepData QueryValidationResult)
  guardrail : Option (StepData GuardrailResult)
deriving DecidableEq

/-- `_execute_sequential_validation` (validation_orchestrator.py lines
311-369): schema validation first with two early exits (task failed, or
completed with `is_valid` false), then injection detection with two early
exits, then query validation and guardrail unconditionally. -/
def executeSequentialValidation
    (schemaV : Except String SchemaResult) (injV : Except String InjectionResult)
    (qV : Except String QueryValidationResult) (gV : Except String GuardrailResult) :
    ValidationResultsMap :=
  let s := runTask schemaV false
  if s.status == "failed" then ⟨some s, none, none, none⟩
  else if (match s.result with | some r => !r.is_valid | none => false) then
    ⟨some s, none, none, none⟩
  else
    let inj := runTask injV false
    if inj.status == "failed" then ⟨some s, some inj, none, none⟩
    else if (match inj.result with | some r => r.is_injection | none => false) then
      ⟨some s, some inj, none, none⟩
    else
      ⟨some s, some inj, some (runTask qV false), some (runTask gV false)⟩

/-- `_execute_parallel_validation` (lines 255-308): the three independent
checks run (concurrently in the source; concurrency only affects timing) and
the guardrail runs after them, not in parallel. -/
def executeParallelValidation
    (schemaV : Except String SchemaResult) (injV : Except String InjectionResult)
    (qV : Except String QueryValidationResult) (gV : Except String GuardrailResult) :
    ValidationResultsMap :=
  ⟨some (runTask schemaV true), some (runTask injV true),
    some (runTask qV true), some (runTask gV false)⟩

/-- `_execute_minimal_validation` (lines 372-403): injection detection with a
single early exit on a positive detection, then guardrail. -/
def executeMinimalValidation
    (injV : Except String InjectionResult) (gV : Except String GuardrailResult) :
    ValidationResultsMap :=
  let inj := runTask injV false
  if (match inj.result with | some r => r.is_injection | none => false) then
    ⟨none, some inj, none, none⟩
  else
    ⟨none, some inj, none, some (runTask gV false)⟩

/-- Accumulator of `_analyze_validation_results` (lines 406-464). -/
structure AnalysisSummary where
  is_valid : Bool
  errors : List String
  warnings : List String
  recommendations : List String
deriving DecidableEq

/-- Error string for a failed step: `f"{name}: {error or 'Unknown error'}"`
(line 417; an absent or empty error text becomes `Unknown error`). -/
def failMsg (name : String) (e : Option String) : String :=
  let msg := e.getD ""
  name ++ ": " ++ (if msg == "" then "Unknown error" else msg)

/-- Aggregation of the `schema_validation` step (lines 426-432). -/
def aggSchema (acc : AnalysisSummary) : Option (StepData SchemaResult) → AnalysisSummary
  | none => acc
  | some st =>
    if st.status == "failed" then
      { acc with
        is_valid := false
        errors := acc.errors ++ [failMsg "schema_validation" st.error] }
    else
      match st.result with
      | none => acc
      | some r =>
        if !r.is_valid then
          { acc with is_valid := false, errors := acc.errors ++ r.errors }
        else
          { acc with
            warnings := acc.warnings ++ r.warnings
            recommendations := acc.recommendations ++ r.suggestions }

/-- Aggregation of the `injection_detection` step (lines 434-441). -/
def aggInjection (acc : AnalysisSummary) : Option (StepData InjectionResult) → AnalysisSummary
  | none => acc
  | some st =>
    if st.status == "failed" then
      { acc with
        is_valid := false
        errors := acc.errors ++ [failMsg "injection_detection" st.error] }
    else
      match st.result with
      | none => acc
      | some r =>
        if r.is_injection then
          { acc with
            is_valid := false
            errors := acc.errors ++ ["SQL injection detected: " ++ r.reason] }
        else if r.confidence == "low" then
          { acc with warnings := acc.warnings ++ ["Low confidence in SQL injection detection"] }
        else acc

/-- Aggregation of the `query_validation` step (lines 443-450). -/
def aggQuery (acc : AnalysisSummary) : Option (StepData QueryValidationResult) → AnalysisSummary
  | none => acc
  | some st =>
    if st.status == "failed" then
      { acc with
        is_valid := false
        errors := acc.errors ++ [failMsg "query_validation" st.error] }
    else
      match st.result with
      | none => acc
      | some r =>
        if !r.is_correct then
          { acc with
            is_valid := false
            errors := acc.errors ++ ["Query validation failed: " ++ r.explanation] }
        else
          { acc with recommendations := acc.recommendations ++ r.suggestions }

/-- Aggregation of the `guardrail` step (lines 452-457): `is_valid` flips only
on decision `reject`; a warning is emitted only on decision `review`. -/
def aggGuardrail (acc : AnalysisSummary) : Option (StepData GuardrailResult) → AnalysisSummary
  | none => acc
  | some st =>
    if st.status == "failed" then
      { acc with
        is_valid := false
        errors := acc.errors ++ [failMsg "guardrail" st.error] }
    else
      match st.result with
      | none => acc
      | some r =>
        if r.decision == "reject" then
          { acc with
            is_valid := false
            errors := acc.errors ++ ["Guardrail rejected: " ++ r.feedback] }
        else if r.decision == "review" then
          { acc with warnings := acc.warnings ++ ["Guardrail review required: " ++ r.feedback] }
        else acc

/-- `_analyze_validation_results` (validation_orchestrator.py lines 406-464),
processing the steps in the dictionary's insertion order. -/
def analyzeValidationResults (m : ValidationResultsMap) : AnalysisSummary :=
  aggGuardrail
    (aggQuery
      (aggInjection
        (aggSchema ⟨true, [], [], []⟩ m.schema_validation)
        m.injection_detection)
      m.query_validation)
    m.guardrail

/-- Strategy dispatch of `validation_orchestrator` (lines 68-92): the strategy
chosen by `_analyze_query_complexity` selects which execution function builds
the `validation_results` dictionary (unknown strategies default to
sequential). -/
def orchestrateChecks (user_query generated_sql : String)
    (schemaV : Except String SchemaResult) (injV : Except String InjectionResult)
    (qV : Except String QueryValidationResult) (gV : Except String GuardrailResult) :
    ValidationResultsMap :=
  let strat := validationStrategy user_query generated_sql
  if strat == "parallel" then executeParallelValidation schemaV injV qV gV
  else if strat == "sequential" then executeSequentialValidation schemaV injV qV gV
  else if strat == "minimal" then executeMinimalValidation injV gV
  else executeSequentialValidation schemaV injV qV gV

/-! ## Injection Detector

Embedding of `sql_injection_detector`
(src/app/services/llm/tools/sql_injection_detector.py lines 15-159).
The whole body sits in a `try` whose `except` returns a safe default, so the
embedded function is total; the oracle interaction is an explicit outcome:
`raised` (the oracle call or anything else in the outer `try` raised),
`unparsed content` (the response could not be JSON-parsed; the keyword
fallback runs on `content`), `parsed v` (successful parse). -/

/-- Parsed oracle fields of the injection detector: the values of
`bool(parsed.get("is_injection", False))`, `str(parsed.get("reason", ""))`
and `str(parsed.get("confidence", "medium"))`. -/
structure InjParsed where
  is_injection : Bool
  reason : String
  confidence : String
deriving DecidableEq

/-- Outcome of the injection detector's oracle call and parse attempt. -/
inductive DetectorOracle where
  | raised
  | unparsed (content : String)
  | parsed (v : InjParsed)
deriving DecidableEq

/-- Danger keywords of the detector's parse-failure fallback (line 134). -/
def dangerKeywords : List String :=
  ["injection", "malicious", "attack", "dangerous"]

/-- Safe keywords of the detector's parse-failure fallback (line 140). -/
def safeKeywords : List String :=
  ["safe", "legitimate", "normal", "ok"]

/-- Embedding of `sql_injection_detector(sql_query, user_type)`
(sql_injection_detector.py lines 15-159). -/
def sql_injection_detector (sql_query : String) (user_type : String)
    (oracle : DetectorOracle) : InjectionResult :=
  if sql_query == "" then ⟨false, "Empty query", "high"⟩
  else
    match oracle with
    | .raised => ⟨false, "LLM analysis failed - defaulting to safe", "low"⟩
    | .parsed v => ⟨v.is_injection, v.reason, v.confidence⟩
    | .unparsed content =>
      let cl := lowerData content
      if dangerKeywords.any (fun k => containsSub cl k.data) then
        ⟨true, "LLM detected injection patterns: " ++ String.mk (content.data.take 200), "medium"⟩
      else if safeKeywords.any (fun k => containsSub cl k.data) then
        ⟨false, "LLM determined query is safe: " ++ String.mk (content.data.take 200), "medium"⟩
      else
        ⟨false, "LLM analysis inconclusive - defaulting to safe", "low"⟩

/-! ## Execution Failure Analyzer

Embedding of `sql_execution_analyzer` and `_fallback_analysis`
(src/app/services/llm/tools/sql_execution_analyzer.py lines 15-278).
Every fallback regex is of the shape `lit1.*lit2.*...*litn`: literal pieces
joined by non-DOTALL `.*` gaps.  `reChainPos` decides `re.search` for such a
pattern: the first literal may occur anywhere; each later literal must follow
the previous one with no newline in the gap. -/

/-- Matcher for a chain of literals joined by `.*` gaps, starting the search
at position `pos`; `restricted` records whether the characters skipped before
the next literal belong to a `.*` gap (and hence may not include a newline). -/
def reChainPos (lits : List (List Char)) (l : List Char) (pos : Nat)
    (restricted : Bool) : Bool :=
  match lits with
  | [] => true
  | w :: rest =>
    (List.range (l.length + 1)).any fun i =>
      pos ≤ i && (!restricted || noNL l pos i) && w.isPrefixOf (l.drop i) &&
        reChainPos rest l (i + w.length) true

/-- Model of `re.search("lit1.*lit2.*...", text)` for the fallback patterns. -/
def reSearchS (lits : List String) (l : List Char) : Bool :=
  reChainPos (lits.map String.data) l 0 false

/-- The `sql_structure_patterns` list of `_fallback_analysis`
(sql_execution_analyzer.py lines 192-221), each regex split at its `.*` gaps. -/
def sqlStructureGroups : List (List String) :=
  [["table", "not found"],
   ["column", "not found"],
   ["syntax error"],
   ["invalid", "syntax"],
   ["missing", "semicolon"],
   ["unexpected", "token"],
   ["invalid", "identifier"],
   ["unknown", "column"],
   ["unknown", "table"],
   ["ambiguous", "column"],
   ["group", "by", "error"],
   ["order", "by", "error"],
   ["having", "without", "group", "by"],
   ["must appear in the group by clause"],
   ["group by clause"],
   ["can only drop one object at a time"],
   ["can only", "one", "at a time"],
   ["can", "only", "drop", "one"],
   ["cannot drop multiple"],
   ["multiple", "drop", "not", "supported"],
   ["not implemented"],
   ["invalid", "function"],
   ["wrong", "number", "of", "arguments"],
   ["data", "type", "mismatch"],
   ["cannot", "convert"],
   ["invalid", "alias"],
   ["duplicate", "column"],
   ["missing", "right", "parenthesis"]]

/-- The `valid_execution_patterns` list of `_fallback_analysis`
(sql_execution_analyzer.py lines 224-244). -/
def validExecutionGroups : List (List String) :=
  [["no", "data", "found"],
   ["empty", "result"],
   ["no", "rows", "affected"],
   ["permission", "denied"],
   ["access", "denied"],
   ["insufficient", "privileges"],
   ["connection", "failed"],
   ["timeout"],
   ["lock", "timeout"],
   ["deadlock"],
   ["constraint", "violation"],
   ["foreign", "key", "violation"],
   ["unique", "constraint"],
   ["check", "constraint"],
   ["resource", "exhausted"],
   ["memory", "limit"],
   ["disk", "space"],
   ["too", "many", "rows"],
   ["result", "too", "large"]]

/-- Result dictionary of `sql_execution_analyzer`. -/
structure AnalysisResult where
  failure_type : String
  should_regenerate : Bool
  regeneration_feedback : String
  user_friendly_message : String
  technical_details : String
  suggested_fixes : List String
deriving DecidableEq

/-- `_fallback_analysis(sql_query, error_message, llm_response)`
(sql_execution_analyzer.py lines 173-278): deterministic regex classification
of the execution error when the oracle's answer is unparseable.  The
`llm_response` argument is unused by the source as well. -/
def fallbackAnalysis (sql_query error_message llm_response : String) : AnalysisResult :=
  if error_message == "" then
    ⟨"unknown", false, "No error message provided",
      "Unable to analyze the error. Please try again.",
      "No error message provided for analysis", []⟩
  else
    let el := lowerData error_message
    if sqlStructureGroups.any (fun g => reSearchS g el) then
      ⟨"sql_structure", true,
        "SQL structure error detected: " ++ error_message,
        "There\x27s an issue with the SQL query structure. I\x27ll try to fix it.",
        "Detected SQL structure error: " ++ error_message,
        ["Check table and column names", "Verify SQL syntax", "Ensure proper clause usage"]⟩
    else if validExecutionGroups.any (fun g => reSearchS g el) then
      ⟨"valid_execution", false,
        "Valid execution error: " ++ error_message,
        "The query is correct but couldn\x27t be executed due to data or permission issues.",
        "Valid execution error: " ++ error_message,
        ["Check data availability", "Verify permissions", "Try with different criteria"]⟩
    else
      ⟨"unknown", false,
        "Unknown error: " ++ error_message,
        "An unexpected error occurred. Please try again.",
        "Unknown error: " ++ error_message,
        ["Try rephrasing your request", "Check if the data exists", "Contact support if the issue persists"]⟩

/-- Parsed oracle fields of the execution analyzer (the `parsed.get` values of
lines 132-137, before the `failure_type` whitelist check). -/
structure AnalyzerParsed where
  failure_type : String
  should_regenerate : Bool
  regeneration_feedback : String
  user_friendly_message : String
  technical_details : String
  suggested_fixes : List String
deriving DecidableEq

/-- Outcome of the execution analyzer's oracle call and parse attempt:
`raised msg` models the outer `except Exception as e` with `str(e) = msg`. -/
inductive AnalyzerOracle where
  | raised (msg : String)
  | unparsed (content : String)
  | parsed (p : AnalyzerParsed)
deriving DecidableEq

/-- Embedding of `sql_execution_analyzer(sql_query, error_message, user_query,
db_schema)` (sql_execution_analyzer.py lines 15-170). -/
def sql_execution_analyzer (sql_query error_message user_query db_schema : String)
    (oracle : AnalyzerOracle) : AnalysisResult :=
  if sql_query == "" || error_message == "" then
    ⟨"unknown", false, "Missing SQL query or error message",
      "Unable to analyze the error. Please try again.",
      "Missing required input for analysis", []⟩
  else
    match oracle with
    | .raised msg =>
      ⟨"unknown", false, "Analysis failed: " ++ msg,
        "Unable to analyze the error. Please try again.",
        "Analysis error: " ++ msg, []⟩
    | .parsed p =>
      let ft0 := String.mk (lowerData p.failure_type)
      let ft := if ft0 == "sql_structure" || ft0 == "valid_execution" || ft0 == "unknown"
        then ft0 else "unknown"
      ⟨ft, p.should_regenerate, p.regeneration_feedback, p.user_friendly_message,
        p.technical_details, p.suggested_fixes⟩
    | .unparsed content => fallbackAnalysis sql_query error_message content

/-! ## Execution Confirmation Handler

Embedding of `sql_execution_handler`
(src/app/services/llm/tools/sql_execution_handler.py lines 31-154).
`execute_sql_query` is the external storage engine: an `Except String Rows`
parameter (`error e` models the raised execution error with message `e`).
The automatic schema scan after a CREATE is an `Except String Nat` parameter.
The returned `HandlerRun` additionally records, as `executedSql`, the exact
SQL string passed to `execute_sql_query` (or `none` when it was never
called) — instrumentation for the round-trip and no-execution properties. -/

/-- Opaque row records returned by the storage engine. -/
abbrev Rows := List String

/-- The `SQLExecutionOutput` dataclass (src/app/schemas/tool_schemas.py lines
101-108); `decision` carries the `DecisionType` enum's string value. -/
structure SQLExecutionOutput where
  query : String
  decision : String
  feedback : String
  row_count : Option Nat
  rows : Option Rows
  user_response : String
deriving DecidableEq

/-- The regeneration-request dictionary returned by the handler's
`sql_structure` branch (sql_execution_handler.py lines 112-123); its `type`
key is always `"regeneration_request"`. -/
structure RegenRequestPayload where
  sql : String
  feedback : String
  requires_clarification : Bool
  original_query : String
  user_friendly_message : String
  technical_details : String
  suggested_fixes : List String
  message : String
  user_response : String
deriving DecidableEq

/-- Value returned by `sql_execution_handler`: either a `SQLExecutionOutput`
dictionary or the regeneration-request dictionary. -/
inductive HandlerResult where
  | out (o : SQLExecutionOutput)
  | regen (r : RegenRequestPayload)
deriving DecidableEq

/-- A handler run: its returned value plus the executed-SQL trace. -/
structure HandlerRun where
  result : HandlerResult
  executedSql : Option String
deriving DecidableEq

/-- Affirmative replies recognised by the handler (sql_execution_handler.py line 54). -/
def affirmWords : List String :=
  ["yes", "y", "execute", "run", "ok", "sure", "proceed"]

/-- Negative replies recognised by the handler (sql_execution_handler.py line 135). -/
def negWords : List String :=
  ["no", "n", "cancel", "stop", "abort", "don\x27t", "dont"]

/-- Embedding of `sql_execution_handler(sql_query, user_response,
original_feedback)` (sql_execution_handler.py lines 31-154). -/
def sql_execution_handler (sql_query user_response original_feedback : String)
    (db : Except String Rows) (scan : Except String Nat)
    (analyzerO : AnalyzerOracle) : HandlerRun :=
  let resp := lowerStrip user_response
  if inWordList resp affirmWords then
    match db with
    | .ok rows =>
      let sql_lower := lowerStrip sql_query
      let is_create := "create".data.isPrefixOf sql_lower
      let feedback := "Query executed successfully after user confirmation"
      let feedback :=
        if is_create then
          match scan with
          | .ok _ => feedback ++ "\n\n✅ Table created successfully! The database schema has been automatically updated."
          | .error _ => feedback ++ "\n\n✅ Table created successfully! (Schema scan failed, but table was created)"
        else feedback
      ⟨.out ⟨sql_query, "executed_after_verification", feedback,
        some rows.length, some rows, user_response⟩, some sql_query⟩
    | .error e =>
      let analysis := sql_execution_analyzer sql_query e
        ("User confirmed execution of: " ++ sql_query) "" analyzerO
      if analysis.should_regenerate && analysis.failure_type == "sql_structure" then
        ⟨.regen ⟨sql_query, analysis.regeneration_feedback, false,
          "User confirmed execution of: " ++ sql_query,
          analysis.user_friendly_message, analysis.technical_details,
          analysis.suggested_fixes,
          "SQL execution failed due to a structural issue. I\x27ll try to fix it.\n\n**Error:** "
            ++ analysis.user_friendly_message ++ "\n\n**Technical Details:** "
            ++ analysis.technical_details
            ++ "\n\nI\x27m regenerating the query with the following feedback: "
            ++ analysis.regeneration_feedback,
          user_response⟩, some sql_query⟩
      else
        ⟨.out ⟨sql_query, "reject", analysis.user_friendly_message,
          none, none, user_response⟩, some sql_query⟩
  else if inWordList resp negWords then
    ⟨.out ⟨sql_query, "cancelled_by_user", "Query execution cancelled by user",
      none, none, user_response⟩, none⟩
  else
    ⟨.out ⟨sql_query, "human_verification",
      "Please respond with \x27yes\x27 to execute or \x27no\x27 to cancel. Your response \x27"
        ++ user_response ++ "\x27 was not clear.",
      none, none, user_response⟩, none⟩

/-! ## Conversation verification branch

Embedding of the human-verification branch of `ConversationCommand.execute`
(src/app/commands/threads/conversation.py lines 105-165).  The previous
assistant message's parsed Decision payload is a `PendingPayload`; the
branch taken for the latest user message is the `TurnPayload`.  In the
source the handler call sits in a `try` whose `except` produces an error
payload; the embedded handler is total, so that path is unreachable here. -/

/-- Fields of the pending assistant Decision payload read by the branch
(`type`, `sql`, `feedback`, `requires_clarification`, `original_query`,
`clarification_questions`, `suggested_tables`, with the source's `get`
defaults for absent keys). -/
structure PendingPayload where
  type : String
  sql : String
  feedback : String
  requires_clarification : Bool
  original_query : String
  clarification_questions : List String
  suggested_tables : List String
deriving DecidableEq

/-- The yes/no-shaped reply list of the conversation branch
(conversation.py line 109). -/
def convYesNoWords : List String :=
  ["yes", "no", "y", "n", "execute", "run", "ok", "sure", "proceed",
   "cancel", "stop", "abort", "don\x27t", "dont"]

/-- Outcome of the verification branch: the assistant payload produced, or
`fallThrough` when the branch does not fire and the turn proceeds to the
clarification-response / generation paths of the source. -/
inductive TurnPayload where
  | clarificationNeeded (message original_query : String)
      (clarification_questions suggested_tables : List String)
  | execResult (r : HandlerResult)
  | errorNoSql (message original_query : String)
  | fallThrough
deriving DecidableEq

/-- A verification-branch turn: the payload plus the executed-SQL trace
propagated from the handler. -/
structure TurnResult where
  payload : TurnPayload
  executedSql : Option String
deriving DecidableEq

/-- Embedding of conversation.py lines 105-165: dispatch of the latest user
message against a pending `human_verification` Decision. -/
def conversationVerificationTurn (prev : PendingPayload) (latest_user_msg : String)
    (db : Except String Rows) (scan : Except String Nat)
    (analyzerO : AnalyzerOracle) : TurnResult :=
  if prev.type == "human_verification"
      && inWordList (lowerStrip latest_user_msg) convYesNoWords then
    if prev.requires_clarification && prev.sql == "" then
      ⟨.clarificationNeeded
        "Please provide more specific details about your request instead of yes/no. I need more information to understand what you\x27re looking for."
        prev.original_query prev.clarification_questions prev.suggested_tables, none⟩
    else if prev.sql != "" then
      let run := sql_execution_handler prev.sql latest_user_msg prev.feedback db scan analyzerO
      ⟨.execResult run.result, run.executedSql⟩
    else
      ⟨.errorNoSql "No SQL query found to execute. Please try rephrasing your request."
        prev.original_query, none⟩
  else
    ⟨.fallThrough, none⟩

/-! ## Tool-call loop

Embedding of the `while True` loop of `ProcessChatMessageCommand.execute`
(src/app/commands/threads/process_chat_message.py lines 61-160).  One oracle
round is summarised by its `finish_reason` and the block of messages the
iteration appends (assistant message, tool results and any SQL-execution
result messages — their construction involves external tools, so the block is
an opaque parameter); `respond i` is the oracle's response on round `i`.
Termination of the embedding is exactly the loop-bound argument: the
recursion is justified by `max_tool_loops - loop_index` decreasing. -/

/-- One chat-completion response round as consumed by the loop. -/
structure LLMToolRound where
  finish_reason : String
  msgs : List String

/-- The `max_tool_loops = 3` bound (process_chat_message.py line 61). -/
def max_tool_loops : Nat := 3

/-- The `while True` loop (lines 64-160), returning the final conversation
messages and the final `loop_index` (the number of tool-call iterations
executed). -/
def toolLoop (respond : Nat → LLMToolRound) (msgs : List String) (loopIdx : Nat) :
    List String × Nat :=
  let r := respond loopIdx
  if r.finish_reason == "tool_calls" then
    let msgs' := msgs ++ r.msgs
    let li := loopIdx + 1
    if h : max_tool_loops ≤ li then (msgs', li)
    else toolLoop respond msgs' li
  else (msgs ++ r.msgs, loopIdx)
termination_by max_tool_loops - loopIdx
decreasing_by simp only [max_tool_loops] at *; omega

/-- A completed validation step wrapping result `r` (used to state properties
of runs in which a given step completed). -/
def completedStep {α : Type} (par : Bool) (r : α) : StepData α :=
  ⟨some r, par, "completed", none⟩

/-! ## Basic lemmas about the string primitives -/

theorem data_append (a b : String) : (a ++ b).data = a.data ++ b.data := by
  cases a; cases b; rfl

theorem lowerData_append (a b : String) :
    lowerData (a ++ b) = lowerData a ++ lowerData b := by
  simp [lowerData, data_append]

theorem isPrefixOf_eqv {w l : List Char} : w.isPrefixOf l = true ↔ w <+: l :=
  List.isPrefixOf_iff_prefix

theorem isPrefixOf_append_ext {w x : List Char} (y : List Char)
    (h : w.isPrefixOf x = true) : w.isPrefixOf (x ++ y) = true := by
  rw [isPrefixOf_eqv] at h ⊢
  exact h.trans (x.prefix_append y)

theorem isPrefixOf_drop_ext {w a : List Char} (b : List Char) {i : Nat}
    (hi : i ≤ a.length) (h : w.isPrefixOf (a.drop i) = true) :
    w.isPrefixOf ((a ++ b).drop i) = true := by
  rw [List.drop_append_of_le_length hi]
  exact isPrefixOf_append_ext b h

theorem containsSub_ext {hay w : List Char} (b : List Char)
    (h : containsSub hay w = true) : containsSub (hay ++ b) w = true := by
  unfold containsSub at h ⊢
  obtain ⟨i, hi, hp⟩ := List.any_eq_true.mp h
  have hi' : i ≤ hay.length := Nat.lt_succ_iff.mp (List.mem_range.mp hi)
  refine List.any_eq_true.mpr ⟨i, List.mem_range.mpr ?_, isPrefixOf_drop_ext b hi' hp⟩
  simp only [List.length_append]
  omega

/-! ## C1 and C2: guardrail tier rules -/

/-- C1: the hard tier rule ("every user-tier DELETE/DROP yields
human_verification on every execution path") fails on the code: on the
JSON-parse-success path `sql_guardrail` returns the oracle's decision
verbatim, so a parseable oracle response of `accept` for a user-tier DELETE
makes the function return `accept`; only the oracle-unparseable fallback path
enforces the rule (second conjunct). -/
theorem C1_parse_path_trusts_oracle :
    (sql_guardrail "DELETE FROM orders" "user" (.parsed "accept" "looks fine")).decision
      = "accept" ∧
    (sql_guardrail "DELETE FROM orders" "user" (.parsed "accept" "looks fine")).accept
      = true ∧
    (sql_guardrail "DELETE FROM orders" "user" (.unparsed "gibberish")).decision
      = "human_verification" := by
  decide

/-- C2 counterexample: the two-statement user-tier text
`select 1; insert into t values (1)` mixes operation types and is not an
all-INSERT batch, so the claim requires `human_verification`; the fallback
accepts it, because its multi-statement detection (`count(";") > 1`) does not
fire on a single `;`. -/
theorem C2_counterexample :
    (sql_guardrail "select 1; insert into t values (1)" "user" (.unparsed "")).decision
      = "accept" := by
  decide

/-- C2 (amended): in the fallback, a user-tier text is treated as
multi-statement only when it contains more than one `;`.  For such a text
that neither starts with DELETE nor contains `drop`: if it starts with
INSERT/UPDATE it is accepted iff every nonempty `;`-separated statement
starts with `insert` and otherwise routed to human_verification; if it does
not start with INSERT/UPDATE it gets human_verification only when a
space-delimited DDL keyword occurs, and is rejected otherwise.  (Texts with
exactly one `;` fall under the single-statement rules and can be accepted
even when mixing operation types, per the counterexample.) -/
theorem C2_fallback_multi_statement_rule (sql content : String)
    (hdel : "delete".data.isPrefixOf (lowerStrip sql) = false)
    (hdrop : containsSub (lowerStrip sql) "drop".data = false)
    (hmulti : multiStmt (lowerStrip sql) = true) :
    (sql_guardrail sql "user" (.unparsed content)).decision =
      (if isInsertUpdateKw (lowerStrip sql) then
        (if allStatementsInsert (lowerStrip sql) then "accept" else "human_verification")
      else if containsDDL (lowerStrip sql) then "human_verification"
      else "reject") := by
  have hadmin : (lowerData "user" == "admin".data) = false := by decide
  simp only [sql_guardrail, hadmin, hdel, hdrop, hmulti, Bool.false_or, Bool.or_false,
    Bool.true_and, Bool.and_true, Bool.not_true, Bool.and_false, Bool.false_and,
    Bool.false_eq_true, if_false, ite_false, apply_ite GuardrailResult.decision]

/-- C2 witness: the amended rule applied to `select 1; select 2;` (a
multi-statement text not led by INSERT/UPDATE, with no DDL keyword), which is
rejected. -/
theorem C2_witness :
    ("delete".data.isPrefixOf (lowerStrip "select 1; select 2;") = false) ∧
    (containsSub (lowerStrip "select 1; select 2;") "drop".data = false) ∧
    (multiStmt (lowerStrip "select 1; select 2;") = true) ∧
    (sql_guardrail "select 1; select 2;" "user" (.unparsed "")).decision = "reject" := by
  refine ⟨by decide, by decide, by decide, ?_⟩
  rw [C2_fallback_multi_statement_rule "select 1; select 2;" ""
    (by decide) (by decide) (by decide)]
  decide

/-! ## C10: the injection detector fails open -/

/-- C10: for every input SQL the detector returns a result (the embedded
function is total because the source wraps its whole body in a `try` whose
handler returns a default); whenever the oracle call raised, or its output was
unparseable and contains none of the keywords injection/malicious/attack/
dangerous, the result has `is_injection = false`. -/
theorem C10_detector_fails_open (sql_query user_type content : String) :
    (sql_injection_detector sql_query user_type .raised).is_injection = false ∧
    ((dangerKeywords.all fun k => !containsSub (lowerData content) k.data) = true →
      (sql_injection_detector sql_query user_type (.unparsed content)).is_injection = false) := by
  constructor
  · unfold sql_injection_detector
    split <;> rfl
  · intro h
    have hany : (dangerKeywords.any fun k => containsSub (lowerData content) k.data) = false := by
      simp only [List.all_eq_true] at h
      simp only [List.any_eq_false]
      intro k hk
      simpa using h k hk
    unfold sql_injection_detector
    split
    · rfl
    · dsimp only
      rw [hany]
      simp only [Bool.false_eq_true, if_false, ite_false]
      split <;> rfl

/-- C10 witness: a raised oracle call and an unparseable, keyword-free answer
both yield `is_injection = false`. -/
theorem C10_witness :
    ((dangerKeywords.all fun k => !containsSub (lowerData "no json here") k.data) = true) ∧
    (sql_injection_detector "select 1" "user" (.unparsed "no json here")).is_injection = false ∧
    (sql_injection_detector "select 1" "user" .raised).is_injection = false :=
  ⟨by decide, (C10_detector_fails_open "select 1" "user" "no json here").2 (by decide),
    (C10_detector_fails_open "select 1" "user" "no json here").1⟩

/-! ## C7: the tool-call loop is bounded -/

theorem toolLoop_idx_le (respond : Nat → LLMToolRound) :
    ∀ (k : Nat) (msgs : List String) (loopIdx : Nat),
      max_tool_loops - loopIdx ≤ k → loopIdx < max_tool_loops →
      (toolLoop respond msgs loopIdx).2 ≤ max_tool_loops := by
  intro k
  induction k with
  | zero =>
    intro msgs loopIdx hk hlt
    omega
  | succ n ih =>
    intro msgs loopIdx hk hlt
    rw [toolLoop]
    split
    · by_cases hm : max_tool_loops ≤ loopIdx + 1
      · rw [dif_pos hm]
        dsimp only
        omega
      · rw [dif_neg hm]
        exact ih _ _ (by omega) (by omega)
    · dsimp only
      omega

theorem toolLoop_idx_exact (respond : Nat → LLMToolRound)
    (hall : ∀ i, (respond i).finish_reason = "tool_calls") :
    ∀ (k : Nat) (msgs : List String) (loopIdx : Nat),
      max_tool_loops - loopIdx ≤ k → loopIdx < max_tool_loops →
      (toolLoop respond msgs loopIdx).2 = max_tool_loops := by
  intro k
  induction k with
  | zero =>
    intro msgs loopIdx hk hlt
    omega
  | succ n ih =>
    intro msgs loopIdx hk hlt
    rw [toolLoop]
    have hfr : ((respond loopIdx).finish_reason == "tool_calls") = true := by
      simp [hall loopIdx]
    rw [if_pos hfr]
    by_cases hm : max_tool_loops ≤ loopIdx + 1
    · rw [dif_pos hm]
      dsimp only
      omega
    · rw [dif_neg hm]
      exact ih _ _ (by omega) (by omega)

/-- C7: the `while True` tool-call loop of `ProcessChatMessageCommand.execute`
always returns after at most `max_tool_loops = 3` tool-call iterations, for
every oracle behaviour — in particular for a regeneration attempt that fails
the same way on every round (second conjunct: when every response keeps
requesting tool calls, the loop still stops after exactly 3 iterations and
returns, rather than looping forever). -/
theorem C7_regeneration_bounded (respond : Nat → LLMToolRound) (msgs : List String) :
    (toolLoop respond msgs 0).2 ≤ max_tool_loops ∧
    ((∀ i, (respond i).finish_reason = "tool_calls") →
      (toolLoop respond msgs 0).2 = max_tool_loops) :=
  ⟨toolLoop_idx_le respond max_tool_loops msgs 0 (by omega) (by decide),
    fun hall => toolLoop_idx_exact respond hall max_tool_loops msgs 0 (by omega)
      (by decide)⟩

/-- C7 witness: an oracle that requests tool calls on every round (as a
deterministically failing regeneration would) drives exactly 3 iterations. -/
theorem C7_witness :
    ((fun _ : Nat => LLMToolRound.mk "tool_calls" ["m"]) 0).finish_reason = "tool_calls" ∧
    (toolLoop (fun _ => LLMToolRound.mk "tool_calls" ["m"]) [] 0).2 = max_tool_loops :=
  ⟨rfl, (C7_regeneration_bounded (fun _ => LLMToolRound.mk "tool_calls" ["m"]) []).2
    (fun _ => rfl)⟩

/-! ## C4: execution-failure analysis routes the handler -/

/-- C4: when an affirmed execution raises with message `e`, the handler asks
the Execution Failure Analyzer; if the analysis is `sql_structure` with
`should_regenerate` true, the handler returns the regeneration-request
payload carrying the failed SQL; if the analysis is `valid_execution` or
`unknown`, it returns a terminal `reject` output and no regeneration.  The
last conjunct checks the analyzer's deterministic fallback on a
`table ... not found` error message: it classifies `sql_structure` with
`should_regenerate` true. -/
theorem C4_execution_failure_routing (sql resp ofb e uq : String)
    (scan : Except String Nat) (o : AnalyzerOracle)
    (ha : inWordList (lowerStrip resp) affirmWords = true) :
    (((sql_execution_analyzer sql e ("User confirmed execution of: " ++ sql) "" o).should_regenerate = true ∧
      (sql_execution_analyzer sql e ("User confirmed execution of: " ++ sql) "" o).failure_type = "sql_structure") →
      ∃ r, (sql_execution_handler sql resp ofb (.error e) scan o).result = .regen r ∧
        r.sql = sql) ∧
    (((sql_execution_analyzer sql e ("User confirmed execution of: " ++ sql) "" o).failure_type = "valid_execution" ∨
      (sql_execution_analyzer sql e ("User confirmed execution of: " ++ sql) "" o).failure_type = "unknown") →
      ∃ od, (sql_execution_handler sql resp ofb (.error e) scan o).result = .out od ∧
        od.decision = "reject") ∧
    ((sql_execution_analyzer "select * from t" "Table t not found" uq "" (.unparsed "junk")).failure_type = "sql_structure" ∧
      (sql_execution_analyzer "select * from t" "Table t not found" uq "" (.unparsed "junk")).should_regenerate = true) := by
  refine ⟨?_, ?_, ?_⟩
  · rintro ⟨h1, h2⟩
    simp only [sql_execution_handler, ha, if_true, ite_true, h1, h2, Bool.true_and,
      show (("sql_structure" : String) == "sql_structure") = true from by decide]
    exact ⟨_, rfl, rfl⟩
  · intro h
    have hcond : ((sql_execution_analyzer sql e ("User confirmed execution of: " ++ sql) "" o).should_regenerate &&
        (sql_execution_analyzer sql e ("User confirmed execution of: " ++ sql) "" o).failure_type == "sql_structure") = false := by
      rcases h with h | h <;>
        simp [h, Bool.and_eq_false_iff]
    simp only [sql_execution_handler, ha, if_true, ite_true, hcond, Bool.false_eq_true,
      if_false, ite_false]
    exact ⟨_, rfl, rfl⟩
  · constructor <;>
      simp only [sql_execution_analyzer,
        show (("select * from t" == "") || ("Table t not found" == "")) = false from by decide,
        Bool.false_eq_true, if_false, ite_false] <;>
      decide

/-- C4 witness: a confirmed execution of `select * from t` that raises
`Table t not found`, with an unparseable analyzer oracle, yields a
regeneration request carrying the failed SQL. -/
theorem C4_witness :
    inWordList (lowerStrip "yes") affirmWords = true ∧
    (∃ r, (sql_execution_handler "select * from t" "yes" "" (.error "Table t not found")
        (.ok 0) (.unparsed "junk")).result = .regen r ∧ r.sql = "select * from t") :=
  ⟨by decide,
    (C4_execution_failure_routing "select * from t" "yes" "" "Table t not found" "q"
      (.ok 0) (.unparsed "junk") (by decide)).1 ⟨by decide, by decide⟩⟩

/-! ## C5 and C6: confirmation round-trip and clarification safety -/

theorem affirm_mem_convYesNo {l : List Char}
    (h : inWordList l affirmWords = true) : inWordList l convYesNoWords = true := by
  simp only [inWordList, affirmWords, List.any_eq_true] at h
  obtain ⟨w, hw, he⟩ := h
  simp only [inWordList, convYesNoWords, List.any_eq_true]
  refine ⟨w, ?_, he⟩
  fin_cases hw <;> simp

theorem handler_affirm_executes (sql_query user_response original_feedback : String)
    (db : Except String Rows) (scan : Except String Nat) (o : AnalyzerOracle)
    (ha : inWordList (lowerStrip user_response) affirmWords = true) :
    (sql_execution_handler sql_query user_response original_feedback db scan o).executedSql
      = some sql_query := by
  cases db with
  | ok rows =>
    simp only [sql_execution_handler, ha, if_true, ite_true]
  | error e =>
    simp only [sql_execution_handler, ha, if_true, ite_true]
    split <;> rfl

/-- C5: for a pending `human_verification` Decision with non-empty `sql`,
an affirmative reply makes the conversation branch call the execution handler
with exactly the Decision's `sql`, and the handler passes that string
character-for-character to the executor. -/
theorem C5_round_trip (prev : PendingPayload) (reply : String)
    (db : Except String Rows) (scan : Except String Nat) (o : AnalyzerOracle)
    (ht : prev.type = "human_verification") (hs : prev.sql ≠ "")
    (hr : inWordList (lowerStrip reply) affirmWords = true) :
    (conversationVerificationTurn prev reply db scan o).executedSql = some prev.sql := by
  have hr' := affirm_mem_convYesNo hr
  have hts : (prev.type == "human_verification") = true := by
    simp [ht]
  have hsq : (prev.sql == "") = false := by
    simpa using hs
  have hsq' : (prev.sql != "") = true := by
    simp [bne, hsq]
  unfold conversationVerificationTurn
  rw [hts, hr']
  simp only [Bool.and_self, if_true, ite_true, hsq, Bool.and_false, Bool.false_eq_true,
    if_false, ite_false, hsq']
  exact handler_affirm_executes prev.sql reply prev.feedback db scan o hr

/-- C5 witness: affirming the pending statement `DELETE FROM t` passes
exactly `DELETE FROM t` to the executor. -/
theorem C5_witness :
    ("human_verification" : String) = "human_verification" ∧
    ("DELETE FROM t" : String) ≠ "" ∧
    inWordList (lowerStrip "yes") affirmWords = true ∧
    (conversationVerificationTurn
      ⟨"human_verification", "DELETE FROM t", "risky", false, "delete all", [], []⟩
      "yes" (.ok []) (.ok 0) (.raised "")).executedSql = some "DELETE FROM t" :=
  ⟨rfl, by decide, by decide,
    C5_round_trip ⟨"human_verification", "DELETE FROM t", "risky", false, "delete all", [], []⟩
      "yes" (.ok []) (.ok 0) (.raised "") rfl (by decide) (by decide)⟩

/-- C6: for a pending `human_verification` Decision with
`requires_clarification` true and empty `sql`, a yes/no-shaped reply produces
the `clarification_needed` payload and the execution handler is never
invoked (no SQL is passed to the executor). -/
theorem C6_clarification_never_executes (prev : PendingPayload) (reply : String)
    (db : Except String Rows) (scan : Except String Nat) (o : AnalyzerOracle)
    (ht : prev.type = "human_verification") (hc : prev.requires_clarification = true)
    (hs : prev.sql = "")
    (hr : inWordList (lowerStrip reply) convYesNoWords = true) :
    (conversationVerificationTurn prev reply db scan o).payload =
      .clarificationNeeded
        "Please provide more specific details about your request instead of yes/no. I need more information to understand what you\x27re looking for."
        prev.original_query prev.clarification_questions prev.suggested_tables ∧
    (conversationVerificationTurn prev reply db scan o).executedSql = none := by
  have hts : (prev.type == "human_verification") = true := by
    simp [ht]
  have hsq : (prev.sql == "") = true := by
    simp [hs]
  unfold conversationVerificationTurn
  rw [hts, hr]
  simp [hc, hsq]

/-- C6 witness: a pending clarification request (empty SQL) answered with
`yes` re-prompts for specifics and executes nothing. -/
theorem C6_witness :
    ("human_verification" : String) = "human_verification" ∧
    inWordList (lowerStrip "yes") convYesNoWords = true ∧
    (conversationVerificationTurn
      ⟨"human_verification", "", "", true, "show me stuff", ["which table?"], ["t"]⟩
      "yes" (.ok []) (.ok 0) (.raised "")).payload =
      .clarificationNeeded
        "Please provide more specific details about your request instead of yes/no. I need more information to understand what you\x27re looking for."
        "show me stuff" ["which table?"] ["t"] ∧
    (conversationVerificationTurn
      ⟨"human_verification", "", "", true, "show me stuff", ["which table?"], ["t"]⟩
      "yes" (.ok []) (.ok 0) (.raised "")).executedSql = none :=
  ⟨rfl, by decide,
    (C6_clarification_never_executes
      ⟨"human_verification", "", "", true, "show me stuff", ["which table?"], ["t"]⟩
      "yes" (.ok []) (.ok 0) (.raised "") rfl rfl rfl (by decide)).1,
    (C6_clarification_never_executes
      ⟨"human_verification", "", "", true, "show me stuff", ["which table?"], ["t"]⟩
      "yes" (.ok []) (.ok 0) (.raised "") rfl rfl rfl (by decide)).2⟩

/-! ## C3: sequential short-circuit on schema failure -/

/-- C3: on a run whose complexity analysis selects the `sequential` strategy,
if the schema validator completes with `is_valid` false then the returned
validation-results map contains no injection-detection, query-validation or
guardrail step (those validators are never invoked), and the aggregated
verdict's `is_valid` is false. -/
theorem C3_sequential_short_circuit (uq sql : String)
    (schemaV : Except String SchemaResult) (injV : Except String InjectionResult)
    (qV : Except String QueryValidationResult) (gV : Except String GuardrailResult)
    (hstrat : validationStrategy uq sql = "sequential")
    (r : SchemaResult) (hs : schemaV = .ok r) (hv : r.is_valid = false) :
    (orchestrateChecks uq sql schemaV injV qV gV).injection_detection = none ∧
    (orchestrateChecks uq sql schemaV injV qV gV).query_validation = none ∧
    (orchestrateChecks uq sql schemaV injV qV gV).guardrail = none ∧
    (analyzeValidationResults (orchestrateChecks uq sql schemaV injV qV gV)).is_valid
      = false := by
  subst hs
  have hmap : orchestrateChecks uq sql (.ok r) injV qV gV =
      ⟨some ⟨some r, false, "completed", none⟩, none, none, none⟩ := by
    unfold orchestrateChecks
    rw [hstrat]
    simp only [show (("sequential" : String) == "parallel") = false from by decide,
      show (("sequential" : String) == "sequential") = true from by decide,
      Bool.false_eq_true, if_false, ite_false, if_true, ite_true]
    unfold executeSequentialValidation runTask
    simp [hv]
  rw [hmap]
  refine ⟨rfl, rfl, rfl, ?_⟩
  unfold analyzeValidationResults aggGuardrail aggQuery aggInjection aggSchema
  simp [hv, failMsg]

/-- C3 witness: `delete from t order by x` has complexity score 3, hence
strategy `sequential`; a completed schema validation reporting a missing
table short-circuits the run. -/
theorem C3_witness :
    validationStrategy "d" "delete from t order by x" = "sequential" ∧
    (Except.ok (⟨false, ["missing table"], [], []⟩ : SchemaResult) :
        Except String SchemaResult) =
      Except.ok (⟨false, ["missing table"], [], []⟩ : SchemaResult) ∧
    (⟨false, ["missing table"], [], []⟩ : SchemaResult).is_valid = false ∧
    ((orchestrateChecks "d" "delete from t order by x"
        (.ok ⟨false, ["missing table"], [], []⟩) (.error "unused") (.error "unused")
        (.error "unused")).injection_detection = none ∧
      (orchestrateChecks "d" "delete from t order by x"
        (.ok ⟨false, ["missing table"], [], []⟩) (.error "unused") (.error "unused")
        (.error "unused")).query_validation = none ∧
      (orchestrateChecks "d" "delete from t order by x"
        (.ok ⟨false, ["missing table"], [], []⟩) (.error "unused") (.error "unused")
        (.error "unused")).guardrail = none ∧
      (analyzeValidationResults (orchestrateChecks "d" "delete from t order by x"
        (.ok ⟨false, ["missing table"], [], []⟩) (.error "unused") (.error "unused")
        (.error "unused"))).is_valid = false) := by
  refine ⟨by decide, rfl, rfl, ?_⟩
  have h := C3_sequential_short_circuit "d" "delete from t order by x"
    (.ok ⟨false, ["missing table"], [], []⟩) (.error "unused") (.error "unused")
    (.error "unused") (by decide) ⟨false, ["missing table"], [], []⟩ rfl rfl
  exact ⟨h.1, h.2.1, h.2.2.1, h.2.2.2⟩

/-! ## C9: guardrail human_verification does not invalidate the verdict -/

/-- C9 counterexample: the clause "`review` [is] a value the guardrail
function never returns" is false — on the JSON-parse-success path the
function returns the oracle's decision verbatim, so an oracle response with
decision `review` makes `sql_guardrail` return `review`. -/
theorem C9_counterexample :
    (sql_guardrail "select 1" "user" (.parsed "review" "needs review")).decision
      = "review" := by
  decide

/-- C9 (amended): when every completed step passes (schema `is_valid` true,
`is_injection` false, `is_correct` true), the aggregator's verdict depends on
the guardrail decision `d` alone: `is_valid` flips only on `reject`, the only
guardrail error string arises on `reject`, and a guardrail warning arises only
on `review` — so a `human_verification` decision leaves `is_valid` true, an
empty error list, and warnings that mention only the schema validator's own
warnings or the low-confidence note.  The guardrail's deterministic fallback
never returns `review` (last conjunct), but the oracle-passthrough path can
(see the counterexample). -/
theorem C9_guardrail_aggregation (se sw ss : List String) (p1 p2 p3 acc : Bool)
    (reason conf expl fb d : String) (qs : List String) :
    (analyzeValidationResults
      ⟨some (completedStep p1 ⟨true, se, sw, ss⟩),
        some (completedStep p2 ⟨false, reason, conf⟩),
        some (completedStep p3 ⟨true, expl, qs⟩),
        some (completedStep false ⟨acc, d, fb⟩)⟩).is_valid
      = (if d = "reject" then false else true) ∧
    (analyzeValidationResults
      ⟨some (completedStep p1 ⟨true, se, sw, ss⟩),
        some (completedStep p2 ⟨false, reason, conf⟩),
        some (completedStep p3 ⟨true, expl, qs⟩),
        some (completedStep false ⟨acc, d, fb⟩)⟩).errors
      = (if d = "reject" then ["Guardrail rejected: " ++ fb] else []) ∧
    (∀ w ∈ (analyzeValidationResults
      ⟨some (completedStep p1 ⟨true, se, sw, ss⟩),
        some (completedStep p2 ⟨false, reason, conf⟩),
        some (completedStep p3 ⟨true, expl, qs⟩),
        some (completedStep false ⟨acc, d, fb⟩)⟩).warnings,
      w ∈ sw ∨ w = "Low confidence in SQL injection detection" ∨
        (d = "review" ∧ w = "Guardrail review required: " ++ fb)) ∧
    (∀ s ut content, (sql_guardrail s ut (.unparsed content)).decision ≠ "review") := by
  refine ⟨?_, ?_, ?_, ?_⟩
  · by_cases hd : d = "reject"
    · subst hd
      by_cases hc : conf = "low" <;>
        simp [analyzeValidationResults, aggGuardrail, aggQuery, aggInjection, aggSchema,
          completedStep, hc]
    · by_cases hr : d = "review" <;> by_cases hc : conf = "low" <;>
        simp [analyzeValidationResults, aggGuardrail, aggQuery, aggInjection, aggSchema,
          completedStep, hd, hr, hc]
  · by_cases hd : d = "reject"
    · subst hd
      by_cases hc : conf = "low" <;>
        simp [analyzeValidationResults, aggGuardrail, aggQuery, aggInjection, aggSchema,
          completedStep, hc]
    · by_cases hr : d = "review" <;> by_cases hc : conf = "low" <;>
        simp [analyzeValidationResults, aggGuardrail, aggQuery, aggInjection, aggSchema,
          completedStep, hd, hr, hc]
  · intro w hw
    by_cases hd : d = "reject"
    · subst hd
      by_cases hc : conf = "low" <;>
        simp [analyzeValidationResults, aggGuardrail, aggQuery, aggInjection, aggSchema,
          completedStep, hc] at hw <;> tauto
    · by_cases hr : d = "review"
      · subst hr
        by_cases hc : conf = "low" <;>
          simp [analyzeValidationResults, aggGuardrail, aggQuery, aggInjection, aggSchema,
            completedStep, hc] at hw <;> tauto
      · by_cases hc : conf = "low" <;>
          simp [analyzeValidationResults, aggGuardrail, aggQuery, aggInjection, aggSchema,
            completedStep, hd, hr, hc] at hw <;> tauto
  · intro s ut content
    unfold sql_guardrail
    dsimp only
    split
    · split
      · simp
      · split <;> simp
    · split
      · simp
      · split
        · split <;> simp
        · split
          · simp
          · split <;> simp

/-- C9 witness: all steps completed and passing with guardrail decision
`human_verification` — the verdict is valid, has no errors, and every warning
is a schema warning or the low-confidence note. -/
theorem C9_witness :
    (analyzeValidationResults
      ⟨some (completedStep false ⟨true, [], ["schema warning"], []⟩),
        some (completedStep false ⟨false, "r", "low"⟩),
        some (completedStep false ⟨true, "e", ["s"]⟩),
        some (completedStep false ⟨false, "human_verification", "fb"⟩)⟩).is_valid
      = (if ("human_verification" : String) = "reject" then false else true) ∧
    (analyzeValidationResults
      ⟨some (completedStep false ⟨true, [], ["schema warning"], []⟩),
        some (completedStep false ⟨false, "r", "low"⟩),
        some (completedStep false ⟨true, "e", ["s"]⟩),
        some (completedStep false ⟨false, "human_verification", "fb"⟩)⟩).errors
      = (if ("human_verification" : String) = "reject"
          then ["Guardrail rejected: " ++ "fb"] else []) ∧
    (∀ w ∈ (analyzeValidationResults
      ⟨some (completedStep false ⟨true, [], ["schema warning"], []⟩),
        some (completedStep false ⟨false, "r", "low"⟩),
        some (completedStep false ⟨true, "e", ["s"]⟩),
        some (completedStep false ⟨false, "human_verification", "fb"⟩)⟩).warnings,
      w ∈ ["schema warning"] ∨ w = "Low confidence in SQL injection detection" ∨
        (("human_verification" : String) = "review" ∧
          w = "Guardrail review required: " ++ "fb")) ∧
    (∀ s ut content, (sql_guardrail s ut (.unparsed content)).decision ≠ "review") :=
  C9_guardrail_aggregation [] ["schema warning"] [] false false false false
    "r" "low" "e" "fb" "human_verification" ["s"]

/-! ## C8: complexity monotonicity

Appending text whose first character is not a word character (any clause
added after whitespace, such as a JOIN or UNION clause or further tokens)
never decreases any factor of the complexity score, hence never decreases the
score and never downgrades the strategy. -/

theorem charAt_append_lt {a : List Char} (b : List Char) {i : Nat} (h : i < a.length) :
    charAt (a ++ b) i = charAt a i :=
  List.getD_append a b ' ' i h

theorem charAt_append_right {a : List Char} (b : List Char) {i : Nat} (h : a.length ≤ i) :
    charAt (a ++ b) i = b.getD (i - a.length) ' ' :=
  List.getD_append_right a b ' ' i h

theorem charAt_mem_bound {a : List Char} {i : Nat} {c : Char} (hne : c ≠ ' ')
    (h : charAt a i = c) : i < a.length := by
  by_contra hcon
  push_neg at hcon
  unfold charAt at h
  rw [List.getD_eq_default _ _ hcon] at h
  exact hne h.symm

theorem isPrefixOf_drop_bounds {w a : List Char} {i : Nat} (hw : w ≠ [])
    (h : w.isPrefixOf (a.drop i) = true) : i ≤ a.length ∧ i + w.length ≤ a.length := by
  have hp := isPrefixOf_eqv.mp h
  have hlen := hp.length_le
  rw [List.length_drop] at hlen
  by_cases hi : i ≤ a.length
  · exact ⟨hi, by omega⟩
  · exfalso
    push_neg at hi
    rw [List.drop_eq_nil_of_le (by omega)] at hp
    exact hw (List.prefix_nil.mp hp)

theorem noNL_ext {a : List Char} (b : List Char) {i j : Nat} (hij : i ≤ j)
    (hj : j ≤ a.length) (h : noNL a i j = true) : noNL (a ++ b) i j = true := by
  unfold noNL at h ⊢
  rw [List.drop_append_of_le_length (le_trans hij hj),
    List.take_append_of_le_length (by rw [List.length_drop]; omega)]
  exact h

theorem wordBndAt_ext {a w : List Char} {i : Nat} (b : List Char) (hw : w ≠ [])
    (hb : headNonWord b = true) (h : wordBndAt a w i = true) :
    wordBndAt (a ++ b) w i = true := by
  unfold wordBndAt at h ⊢
  simp only [Bool.and_eq_true, Bool.or_eq_true] at h
  obtain ⟨⟨h1, h2⟩, h3⟩ := h
  obtain ⟨hi, hiw⟩ := isPrefixOf_drop_bounds hw h1
  simp only [Bool.and_eq_true, Bool.or_eq_true]
  refine ⟨⟨isPrefixOf_drop_ext b hi h1, ?_⟩, ?_⟩
  · by_cases hi0 : i = 0
    · left
      simp [hi0]
    · right
      have h2' : (!isWordChar (charAt a (i - 1))) = true := by
        rcases h2 with hx | hx
        · exact absurd (by simpa using hx) hi0
        · exact hx
      have hlt : i - 1 < a.length := by omega
      rw [charAt_append_lt b hlt]
      exact h2'
  · rcases Nat.lt_or_ge (i + w.length) a.length with hlt | hge
    · rw [charAt_append_lt b hlt]
      exact h3
    · have heq : i + w.length = a.length := le_antisymm hiw hge
      rw [heq, charAt_append_right b (le_refl _)]
      simp only [Nat.sub_self]
      cases b with
      | nil => decide
      | cons c cs =>
        unfold headNonWord at hb
        simpa using hb

theorem patParenSelect_ext {a : List Char} (b : List Char) (hb : headNonWord b = true)
    (h : patParenSelect a = true) : patParenSelect (a ++ b) = true := by
  unfold patParenSelect at h ⊢
  obtain ⟨i, hi, hcond⟩ := List.any_eq_true.mp h
  rw [List.mem_range] at hi
  simp only [Bool.and_eq_true, decide_eq_true_eq, beq_iff_eq] at hcond
  obtain ⟨hparen, hrest⟩ := hcond
  obtain ⟨j, hj, hcondj⟩ := List.any_eq_true.mp hrest
  rw [List.mem_range] at hj
  simp only [Bool.and_eq_true, decide_eq_true_eq, beq_iff_eq] at hcondj
  obtain ⟨⟨⟨hij, hnl1⟩, hword⟩, hrestk⟩ := hcondj
  obtain ⟨k, hk, hcondk⟩ := List.any_eq_true.mp hrestk
  rw [List.mem_range] at hk
  simp only [Bool.and_eq_true, decide_eq_true_eq, beq_iff_eq] at hcondk
  obtain ⟨⟨hjk, hnl2⟩, hclose⟩ := hcondk
  have hlen : a.length ≤ (a ++ b).length := by
    simp [List.length_append]
  refine List.any_eq_true.mpr ⟨i, List.mem_range.mpr (by omega), ?_⟩
  simp only [Bool.and_eq_true, decide_eq_true_eq, beq_iff_eq]
  refine ⟨by rw [charAt_append_lt b hi]; exact hparen, ?_⟩
  refine List.any_eq_true.mpr ⟨j, List.mem_range.mpr (by omega), ?_⟩
  simp only [Bool.and_eq_true, decide_eq_true_eq, beq_iff_eq]
  refine ⟨⟨⟨hij, noNL_ext b hij hj.le hnl1⟩, wordBndAt_ext b (by decide) hb hword⟩, ?_⟩
  refine List.any_eq_true.mpr ⟨k, List.mem_range.mpr (by omega), ?_⟩
  simp only [Bool.and_eq_true, decide_eq_true_eq, beq_iff_eq]
  exact ⟨⟨hjk, noNL_ext b hjk hk.le hnl2⟩, by rw [charAt_append_lt b hk]; exact hclose⟩

theorem patKwParenSelect_ext {a : List Char} (kw : List Char) (b : List Char)
    (hkw : kw ≠ []) (hb : headNonWord b = true)
    (h : patKwParenSelect kw a = true) : patKwParenSelect kw (a ++ b) = true := by
  unfold patKwParenSelect at h ⊢
  obtain ⟨i, hi, hcond⟩ := List.any_eq_true.mp h
  rw [List.mem_range] at hi
  simp only [Bool.and_eq_true, decide_eq_true_eq, beq_iff_eq] at hcond
  obtain ⟨hword1, hrest⟩ := hcond
  obtain ⟨j, hj, hcondj⟩ := List.any_eq_true.mp hrest
  rw [List.mem_range] at hj
  simp only [Bool.and_eq_true, decide_eq_true_eq, beq_iff_eq] at hcondj
  obtain ⟨⟨⟨⟨hij, hnl1⟩, ⟨hj0, hjw⟩⟩, hparen⟩, hrestk⟩ := hcondj
  obtain ⟨k, hk, hcondk⟩ := List.any_eq_true.mp hrestk
  rw [List.mem_range] at hk
  simp only [Bool.and_eq_true, decide_eq_true_eq, beq_iff_eq] at hcondk
  obtain ⟨⟨hjk, hnl2⟩, hword2⟩ := hcondk
  refine List.any_eq_true.mpr ⟨i, List.mem_range.mpr (by simp [List.length_append]; omega), ?_⟩
  simp only [Bool.and_eq_true, decide_eq_true_eq, beq_iff_eq]
  refine ⟨wordBndAt_ext b hkw hb hword1, ?_⟩
  refine List.any_eq_true.mpr ⟨j, List.mem_range.mpr (by simp [List.length_append]; omega), ?_⟩
  simp only [Bool.and_eq_true, decide_eq_true_eq, beq_iff_eq]
  have hj1 : j - 1 < a.length := by omega
  refine ⟨⟨⟨⟨hij, noNL_ext b hij hj.le hnl1⟩,
    ⟨hj0, by rw [charAt_append_lt b hj1]; exact hjw⟩⟩,
    by rw [charAt_append_lt b hj]; exact hparen⟩, ?_⟩
  refine List.any_eq_true.mpr ⟨k, List.mem_range.mpr (by simp [List.length_append]; omega), ?_⟩
  simp only [Bool.and_eq_true, decide_eq_true_eq, beq_iff_eq]
  exact ⟨⟨hjk, noNL_ext b hjk hk.le hnl2⟩, wordBndAt_ext b (by decide) hb hword2⟩

theorem subqueryHit_ext {a : List Char} (b : List Char) (hb : headNonWord b = true)
    (h : subqueryHit a = true) : subqueryHit (a ++ b) = true := by
  unfold subqueryHit at h ⊢
  rw [Bool.and_eq_true, Bool.and_eq_true] at h
  obtain ⟨⟨hg1, hg2⟩, hp⟩ := h
  rw [Bool.or_eq_true, Bool.or_eq_true, Bool.or_eq_true] at hp
  rw [Bool.and_eq_true, Bool.and_eq_true, Bool.or_eq_true, Bool.or_eq_true, Bool.or_eq_true]
  refine ⟨⟨containsSub_ext b hg1, containsSub_ext b hg2⟩, ?_⟩
  rcases hp with ((hp1 | hp2) | hp3) | hp4
  · exact Or.inl (Or.inl (Or.inl (patParenSelect_ext b hb hp1)))
  · exact Or.inl (Or.inl (Or.inr (patKwParenSelect_ext "where".data b (by decide) hb hp2)))
  · exact Or.inl (Or.inr (patKwParenSelect_ext "from".data b (by decide) hb hp3))
  · exact Or.inr (patKwParenSelect_ext "in".data b (by decide) hb hp4)

theorem wcAux_append_le (y : List Char) :
    ∀ (x : List Char) (inw : Bool), wcAux x inw ≤ wcAux (x ++ y) inw := by
  intro x
  induction x with
  | nil =>
    intro inw
    rw [List.nil_append]
    simp [wcAux]
  | cons c cs ih =>
    intro inw
    rw [List.cons_append]
    by_cases hws : c.isWhitespace
    · simp only [wcAux, hws, if_true, ite_true]
      exact ih false
    · simp only [wcAux, hws, Bool.false_eq_true, if_false, ite_false]
      exact Nat.add_le_add_left (ih true) _

theorem pyWordCount_append_le (a b : String) : pyWordCount a ≤ pyWordCount (a ++ b) := by
  unfold pyWordCount
  rw [data_append]
  exact wcAux_append_le b.data a.data false

theorem lenScore_mono {m n : Nat} (h : m ≤ n) : lenScore m ≤ lenScore n := by
  unfold lenScore
  split_ifs <;> omega

theorem opScore_ext (a b : List Char) : opScore a ≤ opScore (a ++ b) := by
  unfold opScore
  by_cases h1 : ("update".data.isPrefixOf a || "delete".data.isPrefixOf a) = true
  · have h1' : ("update".data.isPrefixOf (a ++ b) || "delete".data.isPrefixOf (a ++ b)) = true := by
      simp only [Bool.or_eq_true] at h1 ⊢
      rcases h1 with h | h
      · exact Or.inl (isPrefixOf_append_ext b h)
      · exact Or.inr (isPrefixOf_append_ext b h)
    simp [h1, h1']
  · have h1f : ("update".data.isPrefixOf a || "delete".data.isPrefixOf a) = false := by
      cases hx : ("update".data.isPrefixOf a || "delete".data.isPrefixOf a) with
      | false => rfl
      | true => exact absurd hx h1
    by_cases h2 : ("insert".data.isPrefixOf a) = true
    · have h2' := isPrefixOf_append_ext b h2
      simp only [h1f, h2, h2', Bool.false_eq_true, if_false, ite_false, if_true, ite_true]
      split_ifs <;> omega
    · have h2f : ("insert".data.isPrefixOf a) = false := by
        cases hx : ("insert".data.isPrefixOf a) with
        | false => rfl
        | true => exact absurd hx h2
      simp only [h1f, h2f, Bool.false_eq_true, if_false, ite_false]
      exact Nat.zero_le _

theorem boolFactor_le {p q : Bool} (n : Nat) (h : p = true → q = true) :
    (if p = true then n else 0) ≤ (if q = true then n else 0) := by
  by_cases hp : p = true
  · rw [if_pos hp, if_pos (h hp)]
  · rw [if_neg hp]
    exact Nat.zero_le _

theorem orFactor_imp {x y x' y' : Bool} (hx : x = true → x' = true)
    (hy : y = true → y' = true) : (x || y) = true → (x' || y') = true := by
  intro h
  simp only [Bool.or_eq_true] at h ⊢
  rcases h with h | h
  · exact Or.inl (hx h)
  · exact Or.inr (hy h)

theorem complexityScore_mono (uq a b : String)
    (hb : headNonWord (lowerData b) = true) :
    complexityScore uq a ≤ complexityScore uq (a ++ b) := by
  unfold complexityScore
  rw [lowerData_append]
  refine Nat.add_le_add (Nat.add_le_add (Nat.add_le_add (Nat.add_le_add (Nat.add_le_add
    (Nat.add_le_add (Nat.add_le_add ?_ ?_) ?_) ?_) ?_) ?_) ?_) ?_
  · exact boolFactor_le 2 (containsSub_ext (lowerData b))
  · exact boolFactor_le 2 (subqueryHit_ext (lowerData b) hb)
  · exact boolFactor_le 3 (orFactor_imp (containsSub_ext (lowerData b))
      (containsSub_ext (lowerData b)))
  · exact boolFactor_le 1 (orFactor_imp (containsSub_ext (lowerData b))
      (containsSub_ext (lowerData b)))
  · exact boolFactor_le 1 (containsSub_ext (lowerData b))
  · exact lenScore_mono (pyWordCount_append_le a b)
  · exact le_refl _
  · exact opScore_ext (lowerData a) (lowerData b)

theorem strategyRank_mono {s t : Nat} (h : s ≤ t) :
    strategyRank (strategyOfScore s) ≤ strategyRank (strategyOfScore t) := by
  unfold strategyOfScore
  split_ifs <;> simp [strategyRank] <;> omega

/-- C8: appending a clause that starts with a non-word character (a JOIN, a
UNION, or further tokens pushing the SQL past a length threshold) never
decreases the complexity score; the strategy chosen from the score thresholds
is monotone in the score; hence such an addition never downgrades the chosen
validation strategy. -/
theorem C8_complexity_monotone (uq a b : String)
    (hb : headNonWord (lowerData b) = true) :
    complexityScore uq a ≤ complexityScore uq (a ++ b) ∧
    (∀ s t : Nat, s ≤ t → strategyRank (strategyOfScore s) ≤ strategyRank (strategyOfScore t)) ∧
    strategyRank (validationStrategy uq a) ≤ strategyRank (validationStrategy uq (a ++ b)) := by
  have hs := complexityScore_mono uq a b hb
  exact ⟨hs, fun s t h => strategyRank_mono h, strategyRank_mono hs⟩

/-- C8 witness: appending `" join u on t.a = u.a"` to `select * from t`
(score 0, strategy `minimal`) does not decrease the score or downgrade the
strategy. -/
theorem C8_witness :
    headNonWord (lowerData " join u on t.a = u.a") = true ∧
    complexityScore "q" "select * from t" ≤
      complexityScore "q" ("select * from t" ++ " join u on t.a = u.a") ∧
    strategyRank (validationStrategy "q" "select * from t") ≤
      strategyRank (validationStrategy "q" ("select * from t" ++ " join u on t.a = u.a")) :=
  ⟨by decide,
    (C8_complexity_monotone "q" "select * from t" " join u on t.a = u.a" (by decide)).1,
    (C8_complexity_monotone "q" "select * from t" " join u on t.a = u.a" (by decide)).2.2⟩
